import Mathlib

/-!
Verification development for the kne repository core: the vendor node
defaulting engine (cisco exemplar plus the host vendor module) and the
topology-link custom-resource client. Protobuf messages are embedded as
plain structures, maps as association lists, fallible operations as
Except values.
-/

set_option maxRecDepth 4000

/-- Lookup in an association list: returns the value of the first pair whose
key matches, mirroring map lookup on the Go side. -/
def aLookup {κ β : Type} [DecidableEq κ] (k : κ) : List (κ × β) → Option β
  | [] => none
  | p :: t => if p.1 = k then some p.2 else aLookup k t

/-- Key-wise union of two association lists with the second (source) side
winning on key collision. This embeds the documented map-field semantics of
protobuf Merge: entries of the source map are copied into the destination
map, replacing existing entries. -/
def mergeAssoc {κ β : Type} [DecidableEq κ] (d s : List (κ × β)) : List (κ × β) :=
  d.filter (fun p => (aLookup p.1 s).isNone) ++ s

/-- Scalar-overwrite-if-set: a populated (non-empty) source string replaces
the destination value, embedding protobuf Merge on singular string fields. -/
def mergeStr (d s : String) : String := if s = "" then d else s

/-- Source-wins-if-populated merge for optional fields (protobuf oneof and
message presence semantics). -/
def mergeOpt {α : Type} (d s : Option α) : Option α :=
  match s with
  | some v => some v
  | none => d

/-- Join a list of strings with a separator, as strings.Join does in Go. -/
def joinSep (sep : String) : List String → String
  | [] => ""
  | [x] => x
  | x :: y :: t => x ++ sep ++ joinSep sep (y :: t)

/-- Interface declaration value: the optional user display name (empty string
when unset), embedding tpb.Interface. -/
structure Intf where
  name : String
deriving DecidableEq, Repr

/-- Exposed service: name, internal port, external port, embedding
tpb.Service (node_port is not modelled; the tests ignore it). -/
structure ServiceP where
  name : String
  inside : Nat
  outside : Nat
deriving DecidableEq, Repr

/-- Node configuration block, embedding tpb.Config. ConfigData bytes are
modelled as an optional string. -/
structure Config where
  image : String
  command : List String
  entryCommand : String
  configPath : String
  configFile : String
  configData : Option String
  env : List (String × String)
deriving DecidableEq, Repr

/-- Declarative node description, embedding tpb.Node for the fields the
claims touch. Maps are association lists. -/
structure Node where
  name : String
  model : String
  interfaces : List (String × Intf)
  constraints : List (String × String)
  services : List (Nat × ServiceP)
  labels : List (String × String)
  config : Option Config
deriving DecidableEq, Repr

/-- Empty node description. -/
def emptyNode : Node :=
  { name := "", model := "", interfaces := [], constraints := [], services := [],
    labels := [], config := none }

/-- Empty configuration block. -/
def emptyCfg : Config :=
  { image := "", command := [], entryCommand := "", configPath := "", configFile := "",
    configData := none, env := [] }

/-- Merge of two Config messages following the documented semantics of
proto.Merge (host.go line 13): populated scalar fields of the source win,
repeated fields are appended, map entries are unioned with source winning. -/
def mergeConfig (d s : Config) : Config :=
  { image := mergeStr d.image s.image
    command := d.command ++ s.command
    entryCommand := mergeStr d.entryCommand s.entryCommand
    configPath := mergeStr d.configPath s.configPath
    configFile := mergeStr d.configFile s.configFile
    configData := mergeOpt d.configData s.configData
    env := mergeAssoc d.env s.env }

/-- Merge of optional Config messages: a present source message is merged
recursively into a present destination, otherwise the populated side wins. -/
def mergeOptConfig : Option Config → Option Config → Option Config
  | d, none => d
  | none, some c => some c
  | some d, some c => some (mergeConfig d c)

/-- Merge of two Node messages, embedding proto.Merge(dst, src) field by
field for the modelled fields. -/
def protoMergeNode (d s : Node) : Node :=
  { name := mergeStr d.name s.name
    model := mergeStr d.model s.model
    interfaces := mergeAssoc d.interfaces s.interfaces
    constraints := mergeAssoc d.constraints s.constraints
    services := mergeAssoc d.services s.services
    labels := mergeAssoc d.labels s.labels
    config := mergeOptConfig d.config s.config }

/-- Environment lookup on a completed node: reads the env map of its config
block. -/
def envLookup (n : Node) (k : String) : Option String :=
  match n.config with
  | some c => aLookup k c.env
  | none => none

/-- Image of a node, empty when no config block is present. -/
def imageOf (n : Node) : String :=
  match n.config with
  | some c => c.image
  | none => ""

/-- Command list of a node, empty when no config block is present. -/
def commandOf (n : Node) : List String :=
  match n.config with
  | some c => c.command
  | none => []

/-- Config file name of a node, empty when no config block is present. -/
def configFileOf (n : Node) : String :=
  match n.config with
  | some c => c.configFile
  | none => ""

/-- Extract the node of a successful defaulting run, with the empty node as
the dummy value for the error case. -/
def exOk (e : Except String Node) : Node :=
  match e with
  | .ok n => n
  | .error _ => emptyNode

/- ---------------------------------------------------------------------
Host vendor module, embedded from src/topo/node/host/host.go.
--------------------------------------------------------------------- -/

/-- The default config block of the host vendor, from host.go lines 29-39:
image alpine:latest, a sleep command, an entry command mentioning the node
name, config path /etc and config file config. -/
def hostDefaultCfg (pb : Node) : Config :=
  { image := "alpine:latest"
    command := ["/bin/sh", "-c", "sleep 2000000000000"]
    entryCommand := "kubectl exec -it " ++ pb.name ++ " -- sh"
    configPath := "/etc"
    configFile := "config"
    configData := none
    env := [] }

/-- Host vendor defaults, from host.go lines 29-39. -/
def hostDefaults (pb : Node) : Node :=
  { name := "", model := "", interfaces := [], constraints := [], services := [],
    labels := [],
    config := some (hostDefaultCfg pb) }

/-- Modelled from the spec: node.FixServices (package topo/node, not under
src/) is called by host.New. The spec describes the exposed service map as
external port to name and internal port; the call is modelled as filling
each service entry whose external port is unset from its map key, which
leaves every field the claims mention untouched. -/
def fixServices (n : Node) : Node :=
  { n with services :=
      n.services.map (fun p => (p.1, if p.2.outside = 0 then { p.2 with outside := p.1 } else p.2)) }

/-- The completed host node proto: defaults merged with the description,
then service normalization, embedding host.New (host.go lines 11-19). -/
def hostProto (pb : Node) : Node :=
  fixServices (protoMergeNode (hostDefaults pb) pb)

/-- A constructed host node wrapping its completed proto. -/
structure HostNode where
  pb : Node
deriving DecidableEq, Repr

/-- host.New from host.go lines 11-19: always returns a node wrapping the
merged proto and a nil error. -/
def hostNew (pb : Node) : Except String HostNode :=
  .ok ⟨hostProto pb⟩

/- ---------------------------------------------------------------------
Cisco vendor defaulting engine. The cisco implementation file is not under
src/ (only its test file src/unnamed/part_000 is), so the engine is
modelled from the spec, sections 4.2 and 8, with the concrete tables and
value grammars pinned by the expected protos of the test file.
--------------------------------------------------------------------- -/

/-- Modelled from the spec: the default cisco model constant ModelXRD used
by the test file; its string value is immaterial to the claims. -/
def ModelXRD : String := "xrd"

/-- Modelled from the spec: the per-model data-port capacity table of the
cisco 8000 chassis family (spec section 8 and the range-error tests). -/
def ciscoPortCap (m : String) : Option Nat :=
  if m = "8201" then some 36
  else if m = "8202" then some 72
  else if m = "8201-32FH" then some 32
  else if m = "8101-32H" then some 32
  else if m = "8102-64H" then some 64
  else none

/-- Modelled from the spec: the breakout tier table of the 8000 family, the
physical-interface name stem for a given model and 1-based logical index
(different port-density tiers use different stems for different index
sub-ranges, pinned by the expected XR_INTERFACES values of the tests). -/
def cisco8000Stem (m : String) (k : Nat) : String :=
  if m = "8201" then (if k ≤ 24 then "FourHundredGigE" else "HundredGigE")
  else if m = "8202" then
    (if k ≤ 48 then "HundredGigE" else if k ≤ 60 then "FourHundredGigE" else "HundredGigE")
  else if m = "8201-32FH" then "FourHundredGigE"
  else "HundredGigE"

/-- Modelled from the spec: the physical port name for a model and logical
index, physical index being the logical index minus one. -/
def ciscoPhysName (model : String) (k : Nat) : String :=
  if model = ModelXRD then "GigabitEthernet0/0/0/" ++ Nat.repr (k - 1)
  else cisco8000Stem model k ++ "0/0/0/" ++ Nat.repr (k - 1)

/-- Numeric value of a digit character. -/
def digitVal (c : Char) : Nat := c.toNat - 48

/-- Value of a big-endian list of digit characters. -/
def digitsVal (l : List Char) : Nat := l.foldl (fun a c => 10 * a + digitVal c) 0

/-- Modelled from the spec: parse a logical interface key of the lexical
shape eth followed by a non-empty numeric suffix, returning its 1-based
logical index, or none when the key does not match the pattern. -/
def parseEthIndex (s : String) : Option Nat :=
  let cs := s.data
  if cs.take 3 = ['e', 't', 'h'] ∧ cs.drop 3 ≠ [] ∧ (cs.drop 3).all (fun c => c.isDigit)
  then some (digitsVal (cs.drop 3)) else none

/-- Modelled from the spec: validate one interface key against the model
capacity, producing its logical index or the precise validation error of
spec section 4.3 (lexical reject naming the key, or the model-specific
range error naming index, range and model). -/
def checkIface (model : String) (cap : Option Nat) (key : String) : Except String Nat :=
  match parseEthIndex key with
  | none => .error ("interface \x27" ++ key ++ "\x27 is invalid")
  | some k =>
    match cap with
    | none => .ok k
    | some n =>
      if 1 ≤ k ∧ k ≤ n then .ok k
      else .error ("interface id " ++ Nat.repr k ++
        " can not be mapped to a cisco interface, eth1..eth" ++ Nat.repr n ++
        " is supported on " ++ model)

/-- Modelled from the spec: validate every declared interface in order,
computing for each its logical index, key and display name (the user
display name when present, else the physical port name). -/
def validateAll (model : String) (cap : Option Nat) :
    List (String × Intf) → Except String (List (Nat × String × String))
  | [] => .ok []
  | (key, i) :: t =>
    match checkIface model cap key with
    | .error e => .error e
    | .ok k =>
      match validateAll model cap t with
      | .error e => .error e
      | .ok rest =>
        .ok ((k, key, if i.name = "" then ciscoPhysName model k else i.name) :: rest)

/-- Insert a mapped interface into a list sorted by ascending logical index. -/
def insertByIdx (x : Nat × String × String) :
    List (Nat × String × String) → List (Nat × String × String)
  | [] => [x]
  | y :: t => if x.1 ≤ y.1 then x :: y :: t else y :: insertByIdx x t

/-- Sort mapped interfaces by ascending logical index (insertion sort). -/
def sortByIdx : List (Nat × String × String) → List (Nat × String × String)
  | [] => []
  | x :: t => insertByIdx x (sortByIdx t)

/-- One XR_INTERFACES entry of an 8000-family model: display name, colon,
logical key. -/
def cisco8000Entry (t : Nat × String × String) : String := t.2.2 ++ ":" ++ t.2.1

/-- One XR_INTERFACES entry of the XRD model: linux:key,xr_name=display. -/
def ciscoXrdEntry (t : Nat × String × String) : String :=
  "linux:" ++ t.2.1 ++ ",xr_name=" ++ t.2.2

/-- The fixed management-interface physical name of the 8000 family. -/
def ciscoMgmt8000 : String := "MgmtEther0/RP0/CPU0/0"

/-- The management entry leading every 8000-family XR_INTERFACES value. -/
def ciscoMgmt8000Entry : String := ciscoMgmt8000 ++ ":eth0"

/-- The fixed XR_MGMT_INTERFACES value of the XRD model. -/
def xrdMgmtValue : String :=
  "linux:eth0,xr_name=MgmtEth0/RP0/CPU0/0,chksum,snoop_v4,snoop_v6"

/-- Modelled from the spec: the boot-config path derived from the merged
config block, joining config path and config file. -/
def bootConfigPath (pb : Node) : String :=
  let p := match pb.config with
    | some c => c.configPath
    | none => ""
  let f := match pb.config with
    | some c => c.configFile
    | none => ""
  if p.endsWith "/" then p ++ f else p ++ "/" ++ f

/-- Modelled from the spec: the assembled boot environment for a model and
the sorted mapped interfaces. For the 8000 family the interface-mapping
variable lists the management entry first and a checksum-offload variable
lists the same physical names; for XRD the management interface lives in
its own XR_MGMT_INTERFACES variable. -/
def ciscoEnv (model : String) (pb : Node) (sorted : List (Nat × String × String)) :
    List (String × String) :=
  if model = ModelXRD then
    [("XR_INTERFACES", joinSep ";" (sorted.map ciscoXrdEntry)),
     ("XR_EVERY_BOOT_CONFIG", bootConfigPath pb),
     ("XR_MGMT_INTERFACES", xrdMgmtValue)]
  else
    [("XR_INTERFACES", joinSep "," (ciscoMgmt8000Entry :: sorted.map cisco8000Entry)),
     ("XR_CHECKSUM_OFFLOAD_COUNTERACT",
       joinSep "," (ciscoMgmt8000 :: sorted.map (fun t => t.2.2))),
     ("XR_EVERY_BOOT_CONFIG", bootConfigPath pb)]

/-- Modelled from the spec: the default image per model tier. -/
def ciscoImage (model : String) : String :=
  if model = ModelXRD then "xrd:latest" else "e8000:latest"

/-- Modelled from the spec: the default cpu constraint per model tier. -/
def ciscoCpu (model : String) : String :=
  if model = ModelXRD then "1" else "4"

/-- Modelled from the spec: the default memory constraint per model tier. -/
def ciscoMem (model : String) : String :=
  if model = ModelXRD then "2Gi" else "12Gi"

/-- Modelled from the spec: the vendor-wide plus model-specific default
record of spec section 4.2 step 2 (image, generic service set, labels,
constraints, assembled env, entry command), built before the user fields
are merged on top. -/
def ciscoBase (pb : Node) (model : String) (sorted : List (Nat × String × String)) : Node :=
  { name := ""
    model := model
    interfaces := []
    constraints := [("cpu", ciscoCpu model), ("memory", ciscoMem model)]
    services := [(443, ⟨"ssl", 443, 0⟩), (22, ⟨"ssh", 22, 0⟩), (6030, ⟨"gnmi", 57400, 0⟩)]
    labels := [("vendor", "CISCO")]
    config := some
      { image := ciscoImage model
        command := []
        entryCommand := "kubectl exec -it " ++ pb.name ++ " -- bash"
        configPath := ""
        configFile := ""
        configData := none
        env := ciscoEnv model pb sorted } }

/-- The effective model of a description: the declared model, or ModelXRD
when unset. -/
def modelOf (pb : Node) : String :=
  if pb.model = "" then ModelXRD else pb.model

/-- The capacity used for range validation: the 8000-family capacity table,
with no range restriction for XRD. -/
def capOf (model : String) : Option Nat :=
  if model = ModelXRD then none else ciscoPortCap model

/-- Modelled from the spec: the cisco defaulting engine (spec section 4.2).
Selects the model table, validates and maps every declared interface, then
merges the user description over the assembled default record, failing with
a precise validation error otherwise. -/
def ciscoDefaults (pb : Node) : Except String Node :=
  if modelOf pb ≠ ModelXRD ∧ ciscoPortCap (modelOf pb) = none then
    .error ("unknown model: " ++ modelOf pb)
  else
    match validateAll (modelOf pb) (capOf (modelOf pb)) pb.interfaces with
    | .error e => .error e
    | .ok mapped => .ok (protoMergeNode (ciscoBase pb (modelOf pb) (sortByIdx mapped)) pb)

/- ---------------------------------------------------------------------
Topology link resource client. The client implementation file is not under
src/ (only its test file src/unnamed/part_001 is), so the client and its
typed-to-generic conversion layer are modelled from the spec, section 4.4,
with the record shape pinned by the test fixtures.
--------------------------------------------------------------------- -/

/-- One peer link record of a Link Resource spec: local interface, peer
interface, peer pod and generation counter (topologyv1.Link). -/
structure LinkR where
  localIntf : String
  peerIntf : String
  peerPod : String
  uid : Int
deriving DecidableEq, Repr

/-- Object metadata of a Link Resource: name, namespace and generation. -/
structure TopoMeta where
  name : String
  ns : String
  generation : Int
deriving DecidableEq, Repr

/-- Modelled from the spec: the typed Link Resource record
(topologyv1.Topology): API kind and version, object metadata and the spec
list of peer link records. The status block is owned by the wiring agent
and carries no schema fields here. -/
structure Topology where
  kind : String
  apiVersion : String
  meta : TopoMeta
  links : List LinkR
deriving DecidableEq, Repr

/-- Generic (unstructured) value tree: strings, integers, arrays and
string-keyed objects, the weakly-typed form used by the dynamic resource
API. -/
inductive UVal where
  | s : String → UVal
  | i : Int → UVal
  | arr : List UVal → UVal
  | obj : List (String × UVal) → UVal

/-- Field access on a generic object value. -/
def uField (k : String) : UVal → Option UVal
  | .obj fs => aLookup k fs
  | _ => none

/-- String payload of a generic value. -/
def uStr : UVal → Option String
  | .s v => some v
  | _ => none

/-- Integer payload of a generic value. -/
def uInt : UVal → Option Int
  | .i v => some v
  | _ => none

/-- Array payload of a generic value. -/
def uArr : UVal → Option (List UVal)
  | .arr l => some l
  | _ => none

/-- Modelled from the spec: typed-to-generic conversion of one peer link
record. -/
def linkToU (l : LinkR) : UVal :=
  .obj [("local_intf", .s l.localIntf), ("peer_intf", .s l.peerIntf),
        ("peer_pod", .s l.peerPod), ("uid", .i l.uid)]

/-- Modelled from the spec: generic-to-typed conversion of one peer link
record; fails when a schema field is absent or of the wrong shape. -/
def linkFromU (u : UVal) : Option LinkR :=
  match (uField "local_intf" u).bind uStr, (uField "peer_intf" u).bind uStr,
        (uField "peer_pod" u).bind uStr, (uField "uid" u).bind uInt with
  | some a, some b, some c, some d => some ⟨a, b, c, d⟩
  | _, _, _, _ => none

/-- Option-valued traversal of a list, failing when any element fails. -/
def optMapList {α β : Type} (f : α → Option β) : List α → Option (List β)
  | [] => some []
  | x :: xs =>
    match f x, optMapList f xs with
    | some y, some ys => some (y :: ys)
    | _, _ => none

/-- Modelled from the spec: typed-to-generic conversion of a Link Resource
record, covering every field the typed schema defines. -/
def topoToU (t : Topology) : UVal :=
  .obj [("kind", .s t.kind), ("apiVersion", .s t.apiVersion),
        ("metadata", .obj [("name", .s t.meta.name), ("namespace", .s t.meta.ns),
                           ("generation", .i t.meta.generation)]),
        ("spec", .obj [("links", .arr (t.links.map linkToU))])]

/-- Modelled from the spec: generic-to-typed conversion of a Link Resource
record through the typed schema. -/
def topoFromU (u : UVal) : Option Topology :=
  match (uField "kind" u).bind uStr, (uField "apiVersion" u).bind uStr,
        uField "metadata" u, uField "spec" u with
  | some k, some av, some md, some sp =>
    match (uField "name" md).bind uStr, (uField "namespace" md).bind uStr,
          (uField "generation" md).bind uInt with
    | some nm, some nsv, some g =>
      match (uField "links" sp).bind uArr with
      | some ls =>
        (optMapList linkFromU ls).map (fun links => ⟨k, av, ⟨nm, nsv, g⟩, links⟩)
      | none => none
    | _, _, _ => none
  | _, _, _, _ => none

/-- Find a stored record by namespace and name. -/
def tFind : List Topology → String → String → Option Topology
  | [], _, _ => none
  | t :: ts, ns, n => if t.meta.ns = ns ∧ t.meta.name = n then some t else tFind ts ns n

/-- Modelled from the spec: the NotFound error message surfaced by the
collaborator store for an absent name. -/
def errNotFound (n : String) : String := "\x22" ++ n ++ "\x22 not found"

/-- Modelled from the spec: the AlreadyExists error message surfaced by the
collaborator store for a duplicate name. -/
def errAlreadyExists (n : String) : String :=
  "topologies.networkop.co.uk \x22" ++ n ++ "\x22 already exists"

/-- Modelled from the spec: Get returns the stored typed record, failing
with the collaborator NotFound message when absent. -/
def getT (store : List Topology) (ns n : String) : Except String Topology :=
  match tFind store ns n with
  | some t => .ok t
  | none => .error (errNotFound n)

/-- Modelled from the spec: Unstructured returns the weakly-typed form of a
stored record, losslessly representing every schema field. -/
def unstructuredT (store : List Topology) (ns n : String) : Except String UVal :=
  match tFind store ns n with
  | some t => .ok (topoToU t)
  | none => .error (errNotFound n)

/-- Modelled from the spec: List returns all records of the namespace in
stable store order. -/
def listT (store : List Topology) (ns : String) : List Topology :=
  store.filter (fun t => t.meta.ns == ns)

/-- Modelled from the spec: server-assigned type metadata populated on
create, preserving caller-set values. -/
def withServerMeta (t : Topology) : Topology :=
  { t with
    kind := if t.kind = "" then "Topology" else t.kind,
    apiVersion := if t.apiVersion = "" then "networkop.co.uk/v1beta1" else t.apiVersion }

/-- Modelled from the spec: Create fails with the collaborator AlreadyExists
message when a record with the same name exists, leaving the store
unchanged; otherwise it appends and returns the stored record with
server-assigned metadata populated. -/
def createT (store : List Topology) (ns : String) (t : Topology) :
    List Topology × Except String Topology :=
  if (tFind store ns t.meta.name).isSome then
    (store, .error (errAlreadyExists t.meta.name))
  else
    (store ++ [withServerMeta t], .ok (withServerMeta t))

/-- A watch event: the event type (Added, Modified, Deleted) and its
record. -/
structure WEvent where
  typ : String
  obj : Topology
deriving DecidableEq, Repr

/-- Modelled from the spec: Watch fails fast with the explicit unknown
resource version error when the requested resource-version restriction
cannot be resolved by the store, delivering no event; otherwise it delivers
the events of the store in order. -/
def watchT (known : List String) (events : List WEvent) (rv : String) :
    Except String (List WEvent) :=
  if rv ≠ "" ∧ rv ∉ known then .error "cannot watch unknown resource version"
  else .ok events

/- ---------------------------------------------------------------------
Supporting lemmas.
--------------------------------------------------------------------- -/

theorem aLookup_append_some {κ β : Type} [DecidableEq κ] {k : κ} {v : β}
    {l1 l2 : List (κ × β)} (h : aLookup k l1 = some v) :
    aLookup k (l1 ++ l2) = some v := by
  induction l1 with
  | nil => simp [aLookup] at h
  | cons p t ih =>
    by_cases hp : p.1 = k
    · simp [aLookup, hp] at h ⊢; exact h
    · simp [aLookup, hp] at h ⊢; exact ih h

theorem aLookup_append_none {κ β : Type} [DecidableEq κ] {k : κ}
    {l1 l2 : List (κ × β)} (h : aLookup k l1 = none) :
    aLookup k (l1 ++ l2) = aLookup k l2 := by
  induction l1 with
  | nil => simp
  | cons p t ih =>
    by_cases hp : p.1 = k
    · simp [aLookup, hp] at h
    · simp [aLookup, hp] at h ⊢; exact ih h

theorem aLookup_filter_of_mem {κ β : Type} [DecidableEq κ] {k : κ} {v : β}
    (d s : List (κ × β)) (h : aLookup k s = some v) :
    aLookup k (d.filter (fun p => (aLookup p.1 s).isNone)) = none := by
  induction d with
  | nil => rfl
  | cons p t ih =>
    by_cases hk : (aLookup p.1 s).isNone = true
    · have hp : p.1 ≠ k := by
        intro e
        rw [e, h] at hk
        simp at hk
      simp only [List.filter_cons, hk, if_true]
      simp [aLookup, hp]
      exact ih
    · simp only [List.filter_cons, hk, if_false]
      exact ih

theorem aLookup_filter_of_none {κ β : Type} [DecidableEq κ] {k : κ}
    (d s : List (κ × β)) (h : aLookup k s = none) :
    aLookup k (d.filter (fun p => (aLookup p.1 s).isNone)) = aLookup k d := by
  induction d with
  | nil => rfl
  | cons p t ih =>
    by_cases hp : p.1 = k
    · have hk : (aLookup p.1 s).isNone = true := by rw [hp, h]; rfl
      simp only [List.filter_cons, hk, if_true]
      simp [aLookup, hp]
    · by_cases hk : (aLookup p.1 s).isNone = true
      · simp only [List.filter_cons, hk, if_true]
        simp [aLookup, hp]
        exact ih
      · simp only [List.filter_cons, hk, if_false]
        simp [aLookup, hp]
        exact ih

/-- A key set on the source side of a protobuf map merge keeps its source
value. -/
theorem aLookup_mergeAssoc_right {κ β : Type} [DecidableEq κ] {k : κ} {v : β}
    (d s : List (κ × β)) (h : aLookup k s = some v) :
    aLookup k (mergeAssoc d s) = some v := by
  unfold mergeAssoc
  rw [aLookup_append_none (aLookup_filter_of_mem d s h)]
  exact h

/-- A key absent from the source side of a protobuf map merge resolves to
the destination value. -/
theorem aLookup_mergeAssoc_left {κ β : Type} [DecidableEq κ] {k : κ}
    (d s : List (κ × β)) (h : aLookup k s = none) :
    aLookup k (mergeAssoc d s) = aLookup k d := by
  unfold mergeAssoc
  have hf := aLookup_filter_of_none d s h
  cases hd : aLookup k d with
  | none =>
    rw [hd] at hf
    rw [aLookup_append_none hf, h]
  | some v =>
    rw [hd] at hf
    rw [aLookup_append_some hf]

/-- A separator-joined non-empty list starts with its first element. -/
theorem joinSep_head_exists (sep x : String) (xs : List String) :
    ∃ r, joinSep sep (x :: xs) = x ++ r := by
  cases xs with
  | nil => exact ⟨"", by simp [joinSep]⟩
  | cons y t => exact ⟨sep ++ joinSep sep (y :: t), by simp [joinSep, String.append_assoc]⟩

/-- Destructuring a successful cisco defaulting run: validation succeeded
and the output is the user description merged over the assembled default
record. -/
theorem ciscoDefaults_ok (pb out : Node) (h : ciscoDefaults pb = .ok out) :
    ∃ mapped, validateAll (modelOf pb) (capOf (modelOf pb)) pb.interfaces = .ok mapped ∧
      out = protoMergeNode (ciscoBase pb (modelOf pb) (sortByIdx mapped)) pb := by
  unfold ciscoDefaults at h
  by_cases hg : modelOf pb ≠ ModelXRD ∧ ciscoPortCap (modelOf pb) = none
  · rw [if_pos hg] at h; cases h
  · rw [if_neg hg] at h
    cases hv : validateAll (modelOf pb) (capOf (modelOf pb)) pb.interfaces with
    | error e => rw [hv] at h; cases h
    | ok mapped =>
      rw [hv] at h
      injection h with h
      exact ⟨mapped, rfl, h.symm⟩

/-- A model with an 8000-family capacity is neither the empty model string
nor the XRD model. -/
theorem ciscoPortCap_ne {m : String} {n : Nat} (hm : ciscoPortCap m = some n) :
    m ≠ "" ∧ m ≠ ModelXRD := by
  constructor
  · intro e
    subst e
    have : ciscoPortCap "" = none := rfl
    rw [this] at hm
    cases hm
  · intro e
    subst e
    have : ciscoPortCap ModelXRD = none := rfl
    rw [this] at hm
    cases hm

/- ---------------------------------------------------------------------
Claim theorems.
--------------------------------------------------------------------- -/

/-- The Cisco 8201 scenario node of the test file (test case Cisco 8201
Proto): model 8201 with interfaces eth1, eth2 named GIG1, eth24, eth25 and
eth36. -/
def c1Node : Node :=
  { name := "pod1", model := "8201",
    interfaces := [("eth1", ⟨""⟩), ("eth2", ⟨"GIG1"⟩), ("eth24", ⟨""⟩),
                   ("eth25", ⟨""⟩), ("eth36", ⟨""⟩)],
    constraints := [], services := [], labels := [],
    config := some
      { emptyCfg with
        configFile := "foo", configPath := "/", configData := some "config file data" } }

/-- C1: for the cisco 8201 node with interfaces eth1, eth2 (named GIG1),
eth24, eth25 and eth36, the completed XR_INTERFACES value lists the
management interface first and then the five mapped names in ascending
logical-index order, eth1..eth24 on the FourHundredGigE stem and
eth25..eth36 on the HundredGigE stem with physical index one below the
logical index, the eth2 entry being the user name GIG1 verbatim; and the
defaulted constraints are cpu 4 and memory 12Gi. -/
theorem c1_cisco8201_scenario :
    envLookup (exOk (ciscoDefaults c1Node)) "XR_INTERFACES" =
      some "MgmtEther0/RP0/CPU0/0:eth0,FourHundredGigE0/0/0/0:eth1,GIG1:eth2,FourHundredGigE0/0/0/23:eth24,HundredGigE0/0/0/24:eth25,HundredGigE0/0/0/35:eth36" ∧
    aLookup "cpu" (exOk (ciscoDefaults c1Node)).constraints = some "4" ∧
    aLookup "memory" (exOk (ciscoDefaults c1Node)).constraints = some "12Gi" ∧
    ciscoDefaults c1Node = .ok (exOk (ciscoDefaults c1Node)) :=
  ⟨rfl, rfl, rfl, rfl⟩

/-- The empty-model description of the test file (test case full proto has
no model; test case empty proto is the bare name pod1). -/
def c9Node : Node := { emptyNode with name := "pod1" }

/-- C9: a cisco description with no model does not fail; the engine
completes it with the default model XRD and the XRD defaults image
xrd:latest, cpu 1 and memory 2Gi. -/
theorem c9_default_model_xrd :
    ciscoDefaults c9Node = .ok (exOk (ciscoDefaults c9Node)) ∧
    (exOk (ciscoDefaults c9Node)).model = ModelXRD ∧
    imageOf (exOk (ciscoDefaults c9Node)) = "xrd:latest" ∧
    aLookup "cpu" (exOk (ciscoDefaults c9Node)).constraints = some "1" ∧
    aLookup "memory" (exOk (ciscoDefaults c9Node)).constraints = some "2Gi" :=
  ⟨rfl, rfl, rfl, rfl, rfl⟩

/-- C8: a declared interface key that does not match the eth-then-number
lexical pattern makes the cisco engine fail with the InvalidInterface error
naming the offending key, producing no completed node. -/
theorem c8_invalid_interface_key (key : String) (i : Intf)
    (h : parseEthIndex key = none) :
    ciscoDefaults { emptyNode with name := "pod1", model := ModelXRD, interfaces := [(key, i)] } =
      .error ("interface \x27" ++ key ++ "\x27 is invalid") := by
  have hc : checkIface ModelXRD (capOf ModelXRD)  key =
      .error ("interface \x27" ++ key ++ "\x27 is invalid") := by
    simp [checkIface, h]
  have hmo : modelOf { emptyNode with name := "pod1", model := ModelXRD, interfaces := [(key, i)] } =
      ModelXRD := rfl
  simp only [ciscoDefaults, hmo]
  rw [if_neg (by simp)]
  simp only [validateAll, hc]

/-- C2: for every cisco 8000-family model with capacity N, a declared
interface whose parsed index lies in 1..N is accepted, and an interface
whose parsed index is N+1 fails with the range error naming the index, the
valid range eth1..ethN and the model, producing no completed node. -/
theorem c2_capacity_range (m key badKey : String) (n k : Nat) (i : Intf)
    (hm : ciscoPortCap m = some n)
    (hp : parseEthIndex key = some k) (h1 : 1 ≤ k) (h2 : k ≤ n)
    (hbad : parseEthIndex badKey = some (n + 1)) :
    (ciscoDefaults { emptyNode with name := "pod1", model := m, interfaces := [(key, i)] }).isOk = true ∧
    ciscoDefaults { emptyNode with name := "pod1", model := m, interfaces := [(badKey, Intf.mk "")] } =
      .error ("interface id " ++ Nat.repr (n + 1) ++
        " can not be mapped to a cisco interface, eth1..eth" ++ Nat.repr n ++
        " is supported on " ++ m) := by
  obtain ⟨hne, hnx⟩ := ciscoPortCap_ne hm
  have hcap : capOf m = some n := by simp [capOf, hnx, hm]
  constructor
  · have hmo : modelOf { emptyNode with name := "pod1", model := m, interfaces := [(key, i)] } = m := by
      simp [modelOf, hne]
    have hc : checkIface m (capOf m) key = .ok k := by
      simp [checkIface, hp, hcap, h1, h2]
    simp only [ciscoDefaults, hmo]
    rw [if_neg (by simp [hm])]
    simp only [validateAll, hc]
    rfl
  · have hmo : modelOf { emptyNode with name := "pod1", model := m, interfaces := [(badKey, Intf.mk "")] } = m := by
      simp [modelOf, hne]
    have hcond : ¬(1 ≤ n + 1 ∧ n + 1 ≤ n) := by omega
    have hc : checkIface m (capOf m) badKey =
        .error ("interface id " ++ Nat.repr (n + 1) ++
          " can not be mapped to a cisco interface, eth1..eth" ++ Nat.repr n ++
          " is supported on " ++ m) := by
      simp [checkIface, hbad, hcap, hcond]
    simp only [ciscoDefaults, hmo]
    rw [if_neg (by simp [hm])]
    simp only [validateAll, hc]

/-- Witness for C2 at model 8201 with capacity 36: eth1 is accepted and
eth37 is rejected with the exact range error of the test file. -/
theorem c2_capacity_range_witness :
    (ciscoDefaults { emptyNode with name := "pod1", model := "8201", interfaces := [("eth1", Intf.mk "")] }).isOk = true ∧
    ciscoDefaults { emptyNode with name := "pod1", model := "8201", interfaces := [("eth37", Intf.mk "")] } =
      .error "interface id 37 can not be mapped to a cisco interface, eth1..eth36 is supported on 8201" :=
  c2_capacity_range "8201" "eth1" "eth37" 36 1 (Intf.mk "") rfl rfl (by decide) (by decide) rfl

/-- Witness for C8 at the key eeth of the test file. -/
theorem c8_invalid_interface_key_witness :
    ciscoDefaults { emptyNode with name := "pod1", model := ModelXRD, interfaces := [("eeth", Intf.mk "")] } =
      .error "interface \x27eeth\x27 is invalid" :=
  c8_invalid_interface_key "eeth" (Intf.mk "") rfl

/-- C4: merge law of the cisco defaulting engine. Every constraint, env or
service entry set in the description keeps its value in the completed node,
a set scalar config field is unchanged, and a default-only constraint key
(memory) is added with the model default. -/
theorem c4_merge_law (pb out : Node) (c : Config)
    (hok : ciscoDefaults pb = .ok out) (hc : pb.config = some c) :
    (∀ k v, aLookup k pb.constraints = some v → aLookup k out.constraints = some v) ∧
    (∀ k v, aLookup k c.env = some v → envLookup out k = some v) ∧
    (∀ p sv, aLookup p pb.services = some sv → aLookup p out.services = some sv) ∧
    (c.configFile ≠ "" → configFileOf out = c.configFile) ∧
    (aLookup "memory" pb.constraints = none →
      aLookup "memory" out.constraints = some (ciscoMem (modelOf pb))) := by
  obtain ⟨mapped, hv, hout⟩ := ciscoDefaults_ok pb out hok
  subst hout
  refine ⟨?_, ?_, ?_, ?_, ?_⟩
  · intro k v h
    exact aLookup_mergeAssoc_right _ _ h
  · intro k v h
    simp only [envLookup, protoMergeNode, ciscoBase, mergeOptConfig, hc, mergeConfig]
    exact aLookup_mergeAssoc_right _ _ h
  · intro p sv h
    exact aLookup_mergeAssoc_right _ _ h
  · intro hne
    simp only [configFileOf, protoMergeNode, ciscoBase, mergeOptConfig, hc, mergeConfig, mergeStr]
    rw [if_neg hne]
  · intro hnone
    show aLookup "memory"
      (mergeAssoc (ciscoBase pb (modelOf pb) (sortByIdx mapped)).constraints pb.constraints) =
      some (ciscoMem (modelOf pb))
    rw [aLookup_mergeAssoc_left _ _ hnone]
    simp [ciscoBase, aLookup]

/-- The full-proto description of the test file (test case full proto):
no model, cpu constraint 2, env entry XR_INTERFACES=test/interface. -/
def c4Cfg : Config :=
  { emptyCfg with
    configFile := "foo", configPath := "/", configData := some "config file data",
    env := [("XR_INTERFACES", "test/interface")] }

/-- The node description of the test case full proto. -/
def c4Pb : Node :=
  { name := "pod1", model := "", interfaces := [], constraints := [("cpu", "2")],
    services := [], labels := [], config := some c4Cfg }

/-- Witness for C4 at the full-proto test description: user cpu 2 and user
XR_INTERFACES survive unchanged, the default-only memory key is added with
the XRD default 2Gi, and the user config file name is kept. -/
theorem c4_merge_law_witness :
    aLookup "cpu" (exOk (ciscoDefaults c4Pb)).constraints = some "2" ∧
    envLookup (exOk (ciscoDefaults c4Pb)) "XR_INTERFACES" = some "test/interface" ∧
    aLookup "memory" (exOk (ciscoDefaults c4Pb)).constraints = some "2Gi" ∧
    configFileOf (exOk (ciscoDefaults c4Pb)) = "foo" :=
  have h := c4_merge_law c4Pb (exOk (ciscoDefaults c4Pb)) c4Cfg rfl rfl
  ⟨h.1 "cpu" "2" rfl, h.2.1 "XR_INTERFACES" "test/interface" rfl,
   (h.2.2.2.2 rfl).trans rfl, h.2.2.2.1 (by decide)⟩

/-- Environment lookup through a protobuf merge falls back to the default
side for keys the user description does not set. -/
theorem envLookup_merged (base pb : Node) (k : String) (h : envLookup pb k = none) :
    envLookup (protoMergeNode base pb) k = envLookup base k := by
  cases hb : base.config with
  | none =>
    cases hp : pb.config with
    | none => simp [envLookup, protoMergeNode, hb, hp, mergeOptConfig]
    | some c =>
      simp only [envLookup, hp] at h
      simp [envLookup, protoMergeNode, hb, hp, mergeOptConfig, h]
  | some bc =>
    cases hp : pb.config with
    | none => simp [envLookup, protoMergeNode, hb, hp, mergeOptConfig]
    | some c =>
      simp only [envLookup, hp] at h
      simp only [envLookup, protoMergeNode, hb, hp, mergeOptConfig, mergeConfig]
      exact aLookup_mergeAssoc_left _ _ h

/-- Boolean check that one character list starts with another. -/
def listIsPre : List Char → List Char → Bool
  | [], _ => true
  | _ :: _, [] => false
  | a :: as, b :: bs => a == b && listIsPre as bs

/-- Boolean check that a character list occurs contiguously inside another. -/
def listHasInfix (needle : List Char) : List Char → Bool
  | [] => listIsPre needle []
  | b :: bs => listIsPre needle (b :: bs) || listHasInfix needle bs

/-- Boolean substring check on strings. -/
def strHasSub (needle hay : String) : Bool := listHasInfix needle.data hay.data

/-- C3 amended: for the cisco 8000-family models, provided the user does
not override the XR_INTERFACES env entry, the completed XR_INTERFACES value
is exactly the management entry followed by every mapped physical-logical
pairing in ascending index order, hence the management interface comes
first even when no interface is user-declared; for the XRD model the
management interface is instead always present in the dedicated
XR_MGMT_INTERFACES variable (unless the user overrides it). -/
theorem c3_mgmt_interface_amended (pb out : Node) (n : Nat)
    (mapped : List (Nat × String × String)) :
    (ciscoPortCap (modelOf pb) = some n →
     envLookup pb "XR_INTERFACES" = none →
     ciscoDefaults pb = .ok out →
     validateAll (modelOf pb) (capOf (modelOf pb)) pb.interfaces = .ok mapped →
     envLookup out "XR_INTERFACES" =
       some (joinSep "," (ciscoMgmt8000Entry :: (sortByIdx mapped).map cisco8000Entry)) ∧
     ∃ r, envLookup out "XR_INTERFACES" = some (ciscoMgmt8000Entry ++ r)) ∧
    (modelOf pb = ModelXRD →
     envLookup pb "XR_MGMT_INTERFACES" = none →
     ciscoDefaults pb = .ok out →
     envLookup out "XR_MGMT_INTERFACES" = some xrdMgmtValue) := by
  constructor
  · intro hm henv hok hval
    obtain ⟨mapped2, hv2, hout⟩ := ciscoDefaults_ok pb out hok
    rw [hval] at hv2
    injection hv2 with hv2
    subst hv2
    subst hout
    have hnx : modelOf pb ≠ ModelXRD := (ciscoPortCap_ne hm).2
    rw [envLookup_merged _ _ _ henv]
    have hbase : envLookup (ciscoBase pb (modelOf pb) (sortByIdx mapped)) "XR_INTERFACES" =
        some (joinSep "," (ciscoMgmt8000Entry :: (sortByIdx mapped).map cisco8000Entry)) := by
      simp only [envLookup, ciscoBase, ciscoEnv]
      rw [if_neg hnx]
      simp [aLookup]
    refine ⟨hbase, ?_⟩
    obtain ⟨r, hr⟩ := joinSep_head_exists ","
      ciscoMgmt8000Entry ((sortByIdx mapped).map cisco8000Entry)
    exact ⟨r, by rw [hbase, hr]⟩
  · intro hm henv hok
    obtain ⟨mapped2, hv2, hout⟩ := ciscoDefaults_ok pb out hok
    subst hout
    rw [envLookup_merged _ _ _ henv]
    simp only [envLookup, ciscoBase, ciscoEnv]
    rw [if_pos hm]
    simp [aLookup]

/-- The XRD scenario node of the test file (test case node cisco xrd test):
model XRD with interfaces eth1, eth2 named GIG1 and eth3. -/
def c3XrdNode : Node :=
  { name := "pod1", model := ModelXRD,
    interfaces := [("eth1", ⟨""⟩), ("eth2", ⟨"GIG1"⟩), ("eth3", ⟨""⟩)],
    constraints := [], services := [], labels := [],
    config := some
      { emptyCfg with
        configFile := "foo", configPath := "/", configData := some "config file data" } }

/-- C3 counterexample: for the XRD model (a cisco model) the completed
interface-mapping variable XR_INTERFACES does not contain the management
interface at all, let alone first: its value for the XRD test node is the
three data-interface pairings only, and the string MgmtEth occurs nowhere
in it, so the claim that for every cisco model the interface-mapping
variable lists the management interface first is false. -/
theorem c3_mgmt_interface_counterexample :
    ciscoDefaults c3XrdNode = .ok (exOk (ciscoDefaults c3XrdNode)) ∧
    envLookup (exOk (ciscoDefaults c3XrdNode)) "XR_INTERFACES" =
      some "linux:eth1,xr_name=GigabitEthernet0/0/0/0;linux:eth2,xr_name=GIG1;linux:eth3,xr_name=GigabitEthernet0/0/0/2" ∧
    strHasSub "MgmtEth"
      "linux:eth1,xr_name=GigabitEthernet0/0/0/0;linux:eth2,xr_name=GIG1;linux:eth3,xr_name=GigabitEthernet0/0/0/2" = false :=
  ⟨rfl, rfl, by decide⟩

/-- The mapped-interface list of the 8201 scenario, in declaration order. -/
def c3MappedC1 : List (Nat × String × String) :=
  [(1, "eth1", "FourHundredGigE0/0/0/0"), (2, "eth2", "GIG1"),
   (24, "eth24", "FourHundredGigE0/0/0/23"), (25, "eth25", "HundredGigE0/0/0/24"),
   (36, "eth36", "HundredGigE0/0/0/35")]

/-- Witness for the amended C3: on the 8201 test node the XR_INTERFACES
value is the management entry followed by the sorted pairings, and on the
XRD test node XR_MGMT_INTERFACES carries the management interface. -/
theorem c3_mgmt_interface_amended_witness :
    envLookup (exOk (ciscoDefaults c1Node)) "XR_INTERFACES" =
      some (joinSep "," (ciscoMgmt8000Entry :: (sortByIdx c3MappedC1).map cisco8000Entry)) ∧
    envLookup (exOk (ciscoDefaults c3XrdNode)) "XR_MGMT_INTERFACES" = some xrdMgmtValue :=
  ⟨((c3_mgmt_interface_amended c1Node (exOk (ciscoDefaults c1Node)) 36 c3MappedC1).1
      rfl rfl rfl rfl).1,
   (c3_mgmt_interface_amended c3XrdNode (exOk (ciscoDefaults c3XrdNode)) 0 []).2
      rfl rfl rfl⟩

/-- The counterexample description for C10: a host node whose user config
sets the command list. -/
def c10Pb : Node :=
  { emptyNode with
    name := "h1",
    config := some { emptyCfg with command := ["/custom"] } }

/-- C10 counterexample: host.New never fails, but the completed proto is
not the defaults with user-set fields winning: for a description whose
config sets the command list to /custom, the completed command is the
default sleep command with the user command appended after it, not the
user value, because protobuf merge appends repeated fields. -/
theorem c10_host_new_counterexample :
    hostNew c10Pb = .ok ⟨hostProto c10Pb⟩ ∧
    commandOf c10Pb = ["/custom"] ∧
    commandOf (hostProto c10Pb) = ["/bin/sh", "-c", "sleep 2000000000000", "/custom"] ∧
    commandOf (hostProto c10Pb) ≠ commandOf c10Pb :=
  ⟨rfl, rfl, rfl, by decide⟩

/-- C10 amended: host.New never returns an error, and the completed proto
is the host defaults merged with the description under protobuf merge
semantics: user-set scalar config fields win, unset ones keep the defaults
(image alpine:latest, entry command kubectl exec -it name -- sh, config
path /etc, config file config), while the repeated command field is the
default sleep command with the user elements appended. -/
theorem c10_host_new_amended (pb : Node) (c : Config) (h : pb.config = some c) :
    hostNew pb = .ok ⟨hostProto pb⟩ ∧
    (hostProto pb).config = some (mergeConfig (hostDefaultCfg pb) c) ∧
    (mergeConfig (hostDefaultCfg pb) c).image =
      (if c.image = "" then "alpine:latest" else c.image) ∧
    (mergeConfig (hostDefaultCfg pb) c).command =
      ["/bin/sh", "-c", "sleep 2000000000000"] ++ c.command ∧
    (mergeConfig (hostDefaultCfg pb) c).entryCommand =
      (if c.entryCommand = "" then "kubectl exec -it " ++ pb.name ++ " -- sh"
       else c.entryCommand) ∧
    (mergeConfig (hostDefaultCfg pb) c).configPath =
      (if c.configPath = "" then "/etc" else c.configPath) ∧
    (mergeConfig (hostDefaultCfg pb) c).configFile =
      (if c.configFile = "" then "config" else c.configFile) := by
  refine ⟨rfl, ?_, ?_, ?_, ?_, ?_, ?_⟩
  · simp [hostProto, fixServices, protoMergeNode, hostDefaults, mergeOptConfig, h]
  · simp [mergeConfig, mergeStr, hostDefaultCfg]
  · simp [mergeConfig, hostDefaultCfg]
  · simp [mergeConfig, mergeStr, hostDefaultCfg]
  · simp [mergeConfig, mergeStr, hostDefaultCfg]
  · simp [mergeConfig, mergeStr, hostDefaultCfg]

/-- Witness for the amended C10 at the counterexample description: the
completed image keeps the default and the completed command is the appended
list. -/
theorem c10_host_new_amended_witness :
    hostNew c10Pb = .ok ⟨hostProto c10Pb⟩ ∧
    (hostProto c10Pb).config =
      some (mergeConfig (hostDefaultCfg c10Pb) { emptyCfg with command := ["/custom"] }) ∧
    (mergeConfig (hostDefaultCfg c10Pb) { emptyCfg with command := ["/custom"] }).command =
      ["/bin/sh", "-c", "sleep 2000000000000"] ++ ["/custom"] :=
  have h := c10_host_new_amended c10Pb { emptyCfg with command := ["/custom"] } rfl
  ⟨h.1, h.2.1, h.2.2.2.1⟩

/-- Round trip of one peer link record through the generic form. -/
theorem linkFromU_linkToU (l : LinkR) : linkFromU (linkToU l) = some l := rfl

/-- Round trip of a list of peer link records through the generic form. -/
theorem optMapList_link_roundtrip (ls : List LinkR) :
    optMapList linkFromU (ls.map linkToU) = some ls := by
  induction ls with
  | nil => rfl
  | cons l t ih => simp [List.map_cons, optMapList, linkFromU_linkToU, ih]

/-- C5: typed to generic to typed conversion of a Link Resource record is
the identity on every schema field; in particular the unstructured form of
a stored record converts back to exactly the typed record Get returns. -/
theorem c5_unstructured_roundtrip :
    (∀ t : Topology, topoFromU (topoToU t) = some t) ∧
    (∀ (store : List Topology) (ns nm : String) (t : Topology),
      getT store ns nm = .ok t →
      unstructuredT store ns nm = .ok (topoToU t) ∧ topoFromU (topoToU t) = some t) := by
  have hround : ∀ t : Topology, topoFromU (topoToU t) = some t := by
    intro t
    simp only [topoToU, topoFromU, uField, uStr, uInt, uArr]
    simp [aLookup, optMapList_link_roundtrip]
  refine ⟨hround, ?_⟩
  intro store ns nm t h
  cases hf : tFind store ns nm with
  | none => simp [getT, hf] at h
  | some t0 =>
    simp only [getT, hf] at h
    injection h with h
    subst h
    exact ⟨by simp [unstructuredT, hf], hround t0⟩

/-- The first endpoint record fixture of the test file (obj1). -/
def obj1T : Topology :=
  ⟨"Topology", "networkop.co.uk/v1beta1", ⟨"obj1", "test", 1⟩,
   [⟨"int1", "int1", "obj2", 0⟩]⟩

/-- The second endpoint record fixture of the test file (obj2). -/
def obj2T : Topology :=
  ⟨"Topology", "networkop.co.uk/v1beta1", ⟨"obj2", "test", 1⟩,
   [⟨"int1", "int1", "obj1", 1⟩]⟩

/-- The fresh record fixture of the test file (newObj). -/
def objNewT : Topology :=
  ⟨"Topology", "networkop.co.uk/v1beta1", ⟨"newObj", "test", 1⟩,
   [⟨"int1", "int1", "obj2", 0⟩]⟩

/-- Witness for C5 on the stored fixture obj1: the generic form converts
back to the typed record Get returns. -/
theorem c5_unstructured_roundtrip_witness :
    unstructuredT [obj1T, obj2T] "test" "obj1" = .ok (topoToU obj1T) ∧
    topoFromU (topoToU obj1T) = some obj1T :=
  (c5_unstructured_roundtrip.2 [obj1T, obj2T] "test" "obj1" obj1T rfl)

/-- C6: creating a record whose name already exists fails with the
collaborator AlreadyExists message and leaves the store unchanged, so a
subsequent List returns exactly the pre-existing records; creating a fresh
record succeeds and returns the stored record with caller-set metadata,
spec links and populated type metadata preserved. -/
theorem c6_create_already_exists (store : List Topology) (ns : String) (t : Topology) :
    ((tFind store ns t.meta.name).isSome = true →
      (createT store ns t).1 = store ∧
      (createT store ns t).2 = .error (errAlreadyExists t.meta.name) ∧
      listT (createT store ns t).1 ns = listT store ns) ∧
    ((tFind store ns t.meta.name).isSome = false →
      (createT store ns t).2 = .ok (withServerMeta t) ∧
      (withServerMeta t).meta = t.meta ∧
      (withServerMeta t).links = t.links ∧
      (t.kind ≠ "" → (withServerMeta t).kind = t.kind) ∧
      (t.apiVersion ≠ "" → (withServerMeta t).apiVersion = t.apiVersion)) := by
  constructor
  · intro h
    refine ⟨?_, ?_, ?_⟩ <;> simp [createT, h]
  · intro h
    refine ⟨?_, rfl, rfl, ?_, ?_⟩
    · simp [createT, h]
    · intro hk
      simp [withServerMeta, hk]
    · intro hv
      simp [withServerMeta, hv]

/-- Witness for C6 on the test fixtures: creating obj1 over the store
holding obj1 and obj2 fails with the AlreadyExists message and List still
returns exactly obj1 and obj2; creating newObj succeeds. -/
theorem c6_create_already_exists_witness :
    (createT [obj1T, obj2T] "test" obj1T).2 = .error (errAlreadyExists "obj1") ∧
    listT (createT [obj1T, obj2T] "test" obj1T).1 "test" = [obj1T, obj2T] ∧
    (createT [obj1T, obj2T] "test" objNewT).2 = .ok (withServerMeta objNewT) :=
  have h := c6_create_already_exists [obj1T, obj2T] "test" obj1T
  ⟨(h.1 rfl).2.1, ((h.1 rfl).2.2).trans rfl,
   ((c6_create_already_exists [obj1T, obj2T] "test" objNewT).2 rfl).1⟩

/-- C7: a watch whose resource-version restriction the store cannot resolve
fails immediately with the explicit unknown resource version error and
delivers no event; a watch without a restriction, or with a resolvable one,
succeeds and delivers the events of the store in order. -/
theorem c7_watch_unknown_version (known : List String) (events : List WEvent) (rv : String) :
    (rv ≠ "" → rv ∉ known →
      watchT known events rv = .error "cannot watch unknown resource version") ∧
    (rv ∈ known → watchT known events rv = .ok events) ∧
    (rv = "" → watchT known events rv = .ok events) := by
  refine ⟨?_, ?_, ?_⟩
  · intro h1 h2
    simp [watchT, h1, h2]
  · intro h
    simp [watchT, h]
  · intro h
    simp [watchT, h]

/-- Witness for C7: the unresolvable restriction doesnotexist of the test
file fails with the exact error and no events, while the unrestricted watch
delivers the single Added event of the store in order. -/
theorem c7_watch_unknown_version_witness :
    watchT ["500"] [⟨"ADDED", obj1T⟩] "doesnotexist" =
      .error "cannot watch unknown resource version" ∧
    watchT ["500"] [⟨"ADDED", obj1T⟩] "" = .ok [⟨"ADDED", obj1T⟩] :=
  ⟨(c7_watch_unknown_version ["500"] [⟨"ADDED", obj1T⟩] "doesnotexist").1
      (by decide) (by decide),
   (c7_watch_unknown_version ["500"] [⟨"ADDED", obj1T⟩] "").2.2 rfl⟩
